import Mathlib

/-!
Verification of the AI Support Ticket Assist backend.

Shallow embedding of the Python sources under `backend/app/`:
`database.py` (data model), `crud.py` (repository operations),
`agent.py` (keyword classifier, summary generation, pipeline) and
`main.py` (the `POST /api/analyze` endpoint logic).

Timestamps are modelled as natural numbers; the database is a record of
tables (lists in insertion order) together with the id counters and the
current clock value used for `created_at` assignment.
-/

namespace TicketAssist

/-- A stored support ticket (`database.py`, class `Ticket`). -/
structure Ticket where
  id : Nat
  title : String
  description : String
  created_at : Nat
deriving DecidableEq, Repr

/-- A stored analysis run (`database.py`, class `AnalysisRun`).
`summary` is a nullable text column. -/
structure AnalysisRun where
  id : Nat
  created_at : Nat
  summary : Option String
deriving DecidableEq, Repr

/-- A stored per-ticket analysis row (`database.py`, class `TicketAnalysis`).
`category`, `priority` and `notes` are nullable text columns. -/
structure TicketAnalysis where
  id : Nat
  analysis_run_id : Nat
  ticket_id : Nat
  category : Option String
  priority : Option String
  notes : Option String
deriving DecidableEq, Repr

/-- The database state: the three tables in insertion order, the id
counters for rows created by the analyze endpoint, and the clock used for
`created_at` of newly created rows. -/
structure DB where
  tickets : List Ticket
  analysis_runs : List AnalysisRun
  ticket_analyses : List TicketAnalysis
  nextRunId : Nat
  nextAnalysisId : Nat
  now : Nat
deriving DecidableEq, Repr

/-! ### String containment, modelling Python's `needle in haystack` -/

/-- True exactly when the first argument is an initial segment: `charsStart n h` holds when `n` is an initial segment of `h`. -/
def charsStart : List Char → List Char → Bool
  | [], _ => true
  | _ :: _, [] => false
  | c :: ns, d :: hs => c == d && charsStart ns hs

/-- True exactly when the needle occurs inside: `charsIn n h` holds when `n` occurs contiguously inside `h`. -/
def charsIn (n : List Char) : List Char → Bool
  | [] => charsStart n []
  | d :: hs => charsStart n (d :: hs) || charsIn n hs

/-- Python's substring test `needle in haystack`. -/
def strContains (haystack needle : String) : Bool :=
  charsIn needle.data haystack.data

/-- Python's `any(word in text for word in words)`. -/
def containsAny (text : String) (words : List String) : Bool :=
  words.any (fun w => strContains text w)

/-! ### Keyword classifier (`agent.py`, `mock_analyze_ticket`) -/

/-- Billing keyword list from `mock_analyze_ticket`. -/
def billing_keywords : List String :=
  ["billing", "charge", "payment", "refund", "invoice", "subscription"]

/-- Bug keyword list from `mock_analyze_ticket`. -/
def bug_keywords : List String :=
  ["bug", "crash", "error", "broken", "not working", "issue"]

/-- Feature-request keyword list from `mock_analyze_ticket`. -/
def feature_keywords : List String :=
  ["feature", "request", "add", "would like", "suggest"]

/-- Account keyword list from `mock_analyze_ticket`. -/
def account_keywords : List String :=
  ["login", "account", "access", "password", "authentication"]

/-- Technical keyword list from `mock_analyze_ticket`. -/
def technical_keywords : List String :=
  ["technical", "server", "api", "integration"]

/-- Critical-priority keyword list from `mock_analyze_ticket`. -/
def critical_keywords : List String :=
  ["critical", "urgent", "immediately", "emergency", "data loss"]

/-- High-priority keyword list from `mock_analyze_ticket`. -/
def high_keywords : List String :=
  ["high", "important", "asap", "soon"]

/-- Low-priority keyword list from `mock_analyze_ticket`. -/
def low_keywords : List String :=
  ["low", "minor", "whenever"]

/-- Python's `str.lower()`: character-wise lower-casing (what
`String.toLower` computes via `String.map Char.toLower`). -/
def strLower (s : String) : String :=
  String.mk (s.data.map Char.toLower)

/-- The classifier's search text: `f"{title_lower} {desc_lower}"`. -/
def ticketText (t : Ticket) : String :=
  strLower t.title ++ " " ++ strLower t.description

/-- A classification result: category, priority, notes. -/
structure ClassifyResult where
  category : String
  priority : String
  notes : String
deriving DecidableEq, Repr

/-- From `agent.py`, `mock_analyze_ticket`: keyword classification over the
lower-cased concatenation of title and description. -/
def mock_analyze_ticket (t : Ticket) : ClassifyResult :=
  let text := ticketText t
  let category :=
    if containsAny text billing_keywords then "billing"
    else if containsAny text bug_keywords then "bug"
    else if containsAny text feature_keywords then "feature_request"
    else if containsAny text account_keywords then "account"
    else if containsAny text technical_keywords then "technical"
    else "other"
  let priority :=
    if containsAny text critical_keywords then "critical"
    else if containsAny text high_keywords then "high"
    else if containsAny text low_keywords then "low"
    else "medium"
  { category := category
    priority := priority
    notes := "Auto-categorized as " ++ category ++ " with " ++ priority ++
      " priority based on keywords." }

/-! ### Normalization of an external classification
(`agent.py`, `analyze_single_ticket`, the branch parsing the LLM reply) -/

/-- The valid category values (`agent.py` line 75). -/
def valid_categories : List String :=
  ["billing", "bug", "feature_request", "account", "technical", "other"]

/-- The valid priority values (`agent.py` line 81). -/
def valid_priorities : List String :=
  ["low", "medium", "high", "critical"]

/-- Category normalization from `analyze_single_ticket`: lower-case, then
substitute `"other"` when outside the valid set. -/
def normalize_category (c : String) : String :=
  let c := c.toLower
  if valid_categories.contains c then c else "other"

/-- Priority normalization from `analyze_single_ticket`: lower-case, then
substitute `"medium"` when outside the valid set. -/
def normalize_priority (p : String) : String :=
  let p := p.toLower
  if valid_priorities.contains p then p else "medium"

/-! ### Pipeline (`agent.py`, the two graph nodes) -/

/-- One entry of `state['analysis_results']`. -/
structure PerTicketResult where
  ticket_id : Nat
  category : String
  priority : String
  notes : String
deriving DecidableEq, Repr

/-- From `agent.py`, `analyze_tickets_node` (the deterministic path without an
API key): classify each ticket in input order with the keyword
classifier. -/
def analyze_tickets_node (tickets : List Ticket) : List PerTicketResult :=
  tickets.map (fun t =>
    let r := mock_analyze_ticket t
    { ticket_id := t.id, category := r.category, priority := r.priority,
      notes := r.notes })

/-- One insertion-ordered counting step, modelling
`counts[key] = counts.get(key, 0) + 1` on a Python dict. -/
def bumpCount (counts : List (String × Nat)) (key : String) :
    List (String × Nat) :=
  match counts with
  | [] => [(key, 1)]
  | (k, v) :: rest =>
    if k = key then (k, v + 1) :: rest else (k, v) :: bumpCount rest key

/-- Count occurrences of each key, preserving first-occurrence order, as a
Python dict comprehension over the result list does. -/
def countBy (keys : List String) : List (String × Nat) :=
  keys.foldl bumpCount []

/-- Python's `counts.get(key, 0)` on the association list: the value at
the first matching key, 0 when absent. -/
def getCount : List (String × Nat) → String → Nat
  | [], _ => 0
  | (a, v) :: rest, key => if a = key then v else getCount rest key

/-- Python's `', '.join(f'KEY(VAL)' for ...)` over the counts. -/
def joinCounts (counts : List (String × Nat)) : String :=
  String.intercalate ", "
    (counts.map (fun p => p.1 ++ "(" ++ toString p.2 ++ ")"))

/-- The attention clause appended when critical or high tickets exist
(`agent.py` line 205). -/
def attention_clause (n : Nat) : String :=
  "⚠️ " ++ toString n ++ " ticket(s) require immediate attention."

/-- The three unconditional summary parts (`agent.py` lines 198-202). -/
def summary_base_parts (results : List PerTicketResult) : List String :=
  ["Analyzed " ++ toString results.length ++ " ticket(s).",
   "Categories: " ++ joinCounts (countBy (results.map PerTicketResult.category)) ++ ".",
   "Priorities: " ++ joinCounts (countBy (results.map PerTicketResult.priority)) ++ "."]

/-- From `agent.py`, `generate_summary_node`: the summary string computed from
the per-ticket results. -/
def generate_summary (results : List PerTicketResult) : String :=
  if results.isEmpty then "No tickets analyzed."
  else
    let priority_counts := countBy (results.map PerTicketResult.priority)
    let critical_count := getCount priority_counts "critical"
    let high_count := getCount priority_counts "high"
    let parts := summary_base_parts results
    let parts :=
      if critical_count > 0 ∨ high_count > 0 then
        parts ++ [attention_clause (critical_count + high_count)]
      else parts
    String.intercalate " " parts

/-- The pipeline output: per-ticket results and the aggregate summary. -/
structure PipelineOutput where
  analysis_results : List PerTicketResult
  summary : String
deriving DecidableEq, Repr

/-- From `agent.py`, `analyze_tickets_with_agent`: run the two graph nodes in
sequence (classification, then summarization). -/
def analyze_tickets_with_agent (tickets : List Ticket) : PipelineOutput :=
  let results := analyze_tickets_node tickets
  { analysis_results := results, summary := generate_summary results }

/-! ### Repository operations (`crud.py`) -/

/-- From `crud.py`, `get_tickets`: `query(Ticket).offset(skip).limit(limit)`.
The query has no `order_by`, so rows come back in table (insertion)
order. -/
def get_tickets (db : DB) (skip limit : Nat) : List Ticket :=
  (db.tickets.drop skip).take limit

/-- From `crud.py`, `get_tickets_by_ids`: `filter(Ticket.id.in_(ids))`,
returning only the matches found, in table order. -/
def get_tickets_by_ids (db : DB) (ids : List Nat) : List Ticket :=
  db.tickets.filter (fun t => ids.contains t.id)

/-- From `crud.py`, `create_analysis_run`: insert one run with the given
(optional) summary; `id` and `created_at` assigned at creation. -/
def create_analysis_run (db : DB) (summary : Option String) :
    AnalysisRun × DB :=
  let run : AnalysisRun :=
    { id := db.nextRunId, created_at := db.now, summary := summary }
  (run, { db with analysis_runs := db.analysis_runs ++ [run],
                  nextRunId := db.nextRunId + 1 })

/-- From `crud.py`, `get_latest_analysis_run`:
`query(AnalysisRun).order_by(desc(created_at)).first()`. The sort key is
`created_at` alone; the embedding realises the store's order-by as a
stable descending sort over insertion order. -/
def get_latest_analysis_run (db : DB) : Option AnalysisRun :=
  (db.analysis_runs.mergeSort
    (fun a b => b.created_at ≤ a.created_at)).head?

/-- From `crud.py`, `update_analysis_run_summary`: set the summary of the run
with the given id, if it exists; otherwise change nothing. -/
def update_analysis_run_summary (db : DB) (run_id : Nat)
    (summary : String) : Option AnalysisRun × DB :=
  match db.analysis_runs.find? (fun r => r.id == run_id) with
  | none => (none, db)
  | some r =>
    let updated := { r with summary := some summary }
    let runs := db.analysis_runs.map (fun x =>
      if x.id == run_id then { x with summary := some summary } else x)
    (some updated, { db with analysis_runs := runs })

/-- The per-row payload handed to `create_ticket_analyses`
(`analyses_data` in `main.py`). -/
structure TicketAnalysisData where
  analysis_run_id : Nat
  ticket_id : Nat
  category : Option String
  priority : Option String
  notes : Option String
deriving DecidableEq, Repr

/-- Row construction for `create_ticket_analyses`, assigning sequential
ids starting at `nid`. -/
def create_ticket_analyses_aux (nid : Nat) :
    List TicketAnalysisData → List TicketAnalysis
  | [] => []
  | d :: ds =>
    { id := nid, analysis_run_id := d.analysis_run_id,
      ticket_id := d.ticket_id, category := d.category,
      priority := d.priority, notes := d.notes } ::
    create_ticket_analyses_aux (nid + 1) ds

/-- From `crud.py`, `create_ticket_analyses`: bulk insert of per-ticket
analysis rows. -/
def create_ticket_analyses (db : DB) (ds : List TicketAnalysisData) :
    List TicketAnalysis × DB :=
  let tas := create_ticket_analyses_aux db.nextAnalysisId ds
  (tas, { db with ticket_analyses := db.ticket_analyses ++ tas,
                  nextAnalysisId := db.nextAnalysisId + ds.length })

/-! ### The analyze endpoint (`main.py`, `analyze_tickets`) -/

/-- An HTTP error raised by the endpoint. -/
inductive ApiError where
  | notFound (detail : String)
  | badRequest (detail : String)
deriving DecidableEq, Repr

/-- The HTTP status code of an `ApiError`. -/
def ApiError.statusCode : ApiError → Nat
  | .notFound _ => 404
  | .badRequest _ => 400

/-- The endpoint's success payload (`AnalyzeResponse`). -/
structure AnalyzeSuccess where
  analysis_run : AnalysisRun
  ticket_analyses : List TicketAnalysis
deriving DecidableEq, Repr

/-- Python truthiness of the optional `ticketIds` request field:
`None` and the empty list are both falsy (`if request.ticket_ids:`). -/
def pyTruthy : Option (List Nat) → Bool
  | none => false
  | some l => !l.isEmpty

/-- The tail of the endpoint after the target tickets are resolved:
the empty check (400), run creation, row construction with null
category/priority/notes (the agent call in `main.py` is commented out),
and the bulk insert. The run's summary is never updated. -/
def analyze_with_tickets (db : DB) (tickets : List Ticket) :
    Except ApiError AnalyzeSuccess × DB :=
  if tickets.isEmpty then
    (Except.error (ApiError.badRequest "No tickets found to analyze"), db)
  else
    let p := create_analysis_run db none
    let run := p.1
    let db1 := p.2
    let analyses_data : List TicketAnalysisData := tickets.map (fun t =>
      { analysis_run_id := run.id, ticket_id := t.id,
        category := none, priority := none, notes := none })
    let q := create_ticket_analyses db1 analyses_data
    (Except.ok { analysis_run := run, ticket_analyses := q.1 }, q.2)

/-- From `main.py`, `analyze_tickets` (`POST /api/analyze`): resolve the target
tickets from the optional `ticketIds`, reject with 404 when a requested
id has no matching ticket, then run `analyze_with_tickets`. -/
def analyze_tickets (db : DB) (ticket_ids : Option (List Nat)) :
    Except ApiError AnalyzeSuccess × DB :=
  if pyTruthy ticket_ids then
    let ids := ticket_ids.getD []
    let tickets := get_tickets_by_ids db ids
    if tickets.length ≠ ids.length then
      (Except.error (ApiError.notFound "Some ticket IDs were not found"), db)
    else
      analyze_with_tickets db tickets
  else
    analyze_with_tickets db (get_tickets db 0 1000)

/-- The ticket ids analyzed by a successful request, `none` on error. -/
def analyzedTicketIds (db : DB) (ticket_ids : Option (List Nat)) :
    Option (List Nat) :=
  match (analyze_tickets db ticket_ids).1 with
  | Except.ok s => some (s.ticket_analyses.map TicketAnalysis.ticket_id)
  | Except.error _ => none

/-- The analysis rows persisted by a successful request, `none` on
error. -/
def analyzedRows (db : DB) (ticket_ids : Option (List Nat)) :
    Option (List TicketAnalysis) :=
  match (analyze_tickets db ticket_ids).1 with
  | Except.ok s => some s.ticket_analyses
  | Except.error _ => none

/-- The run created by a successful request, `none` on error. -/
def analyzedRun (db : DB) (ticket_ids : Option (List Nat)) :
    Option AnalysisRun :=
  match (analyze_tickets db ticket_ids).1 with
  | Except.ok s => some s.analysis_run
  | Except.error _ => none

end TicketAssist

/-! ### Concrete states used in closed theorems -/

namespace TicketAssist

/-- A store holding one ticket (id 1), with the run/row counters at 0 and
the clock at 5. -/
def oneTicketDB : DB :=
  { tickets := [{ id := 1, title := "hello", description := "world",
                  created_at := 0 }],
    analysis_runs := [], ticket_analyses := [],
    nextRunId := 0, nextAnalysisId := 0, now := 5 }

/-- A concrete ticket containing a billing term, a bug term, "critical"
and "high". -/
def c6ticket : Ticket :=
  { id := 1, title := "Billing bug", description := "critical and high", created_at := 0 }

/-- A concrete ticket whose text has no classifier keyword as a
substring. -/
def c7ticket : Ticket :=
  { id := 1, title := "hello", description := "greetings", created_at := 0 }

/-- The total of critical-priority and high-priority results, stated
directly as occurrence counts over the result list. -/
def attention_count (results : List PerTicketResult) : Nat :=
  (results.map PerTicketResult.priority).count "critical" +
  (results.map PerTicketResult.priority).count "high"

/-- Three per-ticket results with priorities critical, high, low. -/
def c5results : List PerTicketResult :=
  [{ ticket_id := 1, category := "other", priority := "critical", notes := "n" },
   { ticket_id := 2, category := "other", priority := "high", notes := "n" },
   { ticket_id := 3, category := "other", priority := "low", notes := "n" }]

/-- A store holding two tickets (ids 1 and 2). -/
def twoTicketDB : DB :=
  { tickets := [{ id := 1, title := "a", description := "b", created_at := 0 },
                { id := 2, title := "c", description := "d", created_at := 1 }],
    analysis_runs := [], ticket_analyses := [],
    nextRunId := 0, nextAnalysisId := 0, now := 9 }

/-- A store with two analysis runs sharing the same `created_at`; the
run with the greater id (2) was inserted second. -/
def tieRunsDB : DB :=
  { tickets := [], ticket_analyses := [],
    analysis_runs := [{ id := 1, created_at := 100, summary := none },
                      { id := 2, created_at := 100, summary := none }],
    nextRunId := 3, nextAnalysisId := 0, now := 100 }

/-- A store with a single analysis run. -/
def oneRunDB : DB :=
  { tickets := [], ticket_analyses := [],
    analysis_runs := [{ id := 7, created_at := 3, summary := none }],
    nextRunId := 8, nextAnalysisId := 0, now := 3 }

/-- The i-th ticket of the large store: id and created_at both `i`. -/
def bigTicket (i : Nat) : Ticket :=
  { id := i, title := "t", description := "d", created_at := i }

/-- A store with 1001 tickets whose `created_at` strictly increases with
insertion order, so the last ticket (id 1000) is the most recent. -/
def bigDB : DB :=
  { tickets := (List.range 1001).map bigTicket,
    analysis_runs := [], ticket_analyses := [],
    nextRunId := 0, nextAnalysisId := 0, now := 2000 }

/-! ### Supporting lemmas -/

/-- One bump changes exactly the bumped key's count. -/
theorem getCount_bumpCount :
    ∀ (counts : List (String × Nat)) (key k : String),
      getCount (bumpCount counts key) k =
        if k = key then getCount counts k + 1 else getCount counts k
  | [], key, k => by
    by_cases h : k = key
    · simp [bumpCount, getCount, h]
    · simp [bumpCount, getCount, h, Ne.symm h]
  | (a, v) :: tl, key, k => by
    by_cases hak : a = key
    · subst hak
      by_cases hka : k = a
      · simp [bumpCount, getCount, hka]
      · simp [bumpCount, getCount, hka, Ne.symm hka]
    · have ih := getCount_bumpCount tl key k
      by_cases hka : a = k
      · have hkk : ¬k = key := fun h => hak (hka.trans h)
        simp [bumpCount, getCount, hak, hka, hkk]
      · by_cases hkk : k = key <;>
          simp [bumpCount, getCount, hak, hka, hkk] <;>
          simpa [hkk] using ih

/-- Folding `bumpCount` adds the occurrence counts to the accumulator. -/
theorem getCount_foldl_bumpCount :
    ∀ (keys : List String) (acc : List (String × Nat)) (k : String),
      getCount (keys.foldl bumpCount acc) k = getCount acc k + keys.count k
  | [], acc, k => by simp
  | a :: tl, acc, k => by
    rw [List.foldl_cons, getCount_foldl_bumpCount tl (bumpCount acc a) k,
      getCount_bumpCount, List.count_cons]
    by_cases h : k = a
    · simp [h]
      omega
    · simp [beq_iff_eq, Ne.symm h, h]

/-- The dict-style counter agrees with list occurrence counting. -/
theorem getCount_countBy (keys : List String) (k : String) :
    getCount (countBy keys) k = keys.count k := by
  simpa [countBy, getCount] using getCount_foldl_bumpCount keys [] k

/-- Appending one element to the joined list appends one separator and
the element. -/
theorem intercalate_go_append (s d : String) :
    ∀ (as : List String) (acc : String),
      String.intercalate.go acc s (as ++ [d]) =
        String.intercalate.go acc s as ++ s ++ d
  | [], acc => rfl
  | a :: as, acc => by
    simp only [List.cons_append]
    show String.intercalate.go (acc ++ s ++ a) s (as ++ [d]) =
      String.intercalate.go (acc ++ s ++ a) s as ++ s ++ d
    exact intercalate_go_append s d as (acc ++ s ++ a)

/-- For a nonempty list, `intercalate` distributes over appending a
single element. -/
theorem intercalate_append_singleton (s d : String) :
    ∀ (xs : List String), xs ≠ [] →
      String.intercalate s (xs ++ [d]) =
        String.intercalate s xs ++ s ++ d
  | [], h => absurd rfl h
  | a :: xs, _ => by
    simp only [List.cons_append, String.intercalate]
    exact intercalate_go_append s d xs a

/-- The inserted analysis rows carry exactly the requested ticket ids,
in order. -/
theorem map_ticket_id_create_ticket_analyses_aux :
    ∀ (nid : Nat) (ds : List TicketAnalysisData),
      (create_ticket_analyses_aux nid ds).map TicketAnalysis.ticket_id =
        ds.map TicketAnalysisData.ticket_id
  | _, [] => rfl
  | nid, d :: ds => by
    simp [create_ticket_analyses_aux,
      map_ticket_id_create_ticket_analyses_aux (nid + 1) ds]

/-- With `ticketIds` omitted and at least one stored ticket, the request
succeeds and the analyzed ticket ids are those of the first (up to) 1000
tickets in table order. -/
theorem analyzedTicketIds_omitted (db : DB) (h : db.tickets ≠ []) :
    analyzedTicketIds db none =
      some ((db.tickets.take 1000).map Ticket.id) := by
  have hne : (db.tickets.take 1000).isEmpty = false := by
    rcases hdt : db.tickets with _ | ⟨a, l⟩
    · exact absurd hdt h
    · rfl
  simp only [analyzedTicketIds, analyze_tickets, pyTruthy, get_tickets,
    List.drop_zero, analyze_with_tickets, hne, Bool.false_eq_true,
    if_false, create_analysis_run, create_ticket_analyses]
  rw [map_ticket_id_create_ticket_analyses_aux, List.map_map]
  rfl

/-! ### Claim theorems -/

/-- C1. The claim says a successful `POST /api/analyze` mutates the
created run's summary exactly once, by the pipeline's aggregation stage,
before the request ends. The code never does: the agent call and the
summary update in `analyze_tickets` are commented out, so after a
successful request the created run's summary is still `none`, both in the
response and in the store. -/
theorem c1_summary_never_set :
    analyzedRun oneTicketDB (some [1]) =
      some { id := 0, created_at := 5, summary := none } ∧
    (analyze_tickets oneTicketDB (some [1])).2.analysis_runs.map
      AnalysisRun.summary = [none] := by
  decide

/-- C2. The claim says every persisted `TicketAnalysis` row carries a
category from the valid category set and a priority from the valid
priority set. The code persists every row with `category = None` and
`priority = None` (the agent that would fill them is never called), so no
persisted row carries any valid value at all. -/
theorem c2_rows_persisted_with_null_fields :
    analyzedRows oneTicketDB (some [1]) =
      some [{ id := 0, analysis_run_id := 0, ticket_id := 1,
              category := none, priority := none, notes := none }] ∧
    ∀ ta ∈ (analyze_tickets oneTicketDB (some [1])).2.ticket_analyses,
      (∀ c ∈ valid_categories, ta.category ≠ some c) ∧
      (∀ p ∈ valid_priorities, ta.priority ≠ some p) := by
  decide

/-- C3. A request whose nonempty `ticketIds` list contains an id with no
matching ticket is rejected whole with the 404 error, and the store is
returned unchanged: no `AnalysisRun` row and no `TicketAnalysis` rows
are created. Stated under the store invariant that ticket ids are
unique (ids are a primary key). -/
theorem c3_missing_id_rejects_whole_request (db : DB) (ids : List Nat)
    (hnodup : (db.tickets.map Ticket.id).Nodup) (hne : ids ≠ [])
    (i : Nat) (hmem : i ∈ ids) (hmiss : ∀ t ∈ db.tickets, t.id ≠ i) :
    analyze_tickets db (some ids) =
      (Except.error (ApiError.notFound "Some ticket IDs were not found"),
       db) := by
  have hsub :
      ((get_tickets_by_ids db ids).map Ticket.id).Sublist
        (db.tickets.map Ticket.id) :=
    List.Sublist.map _ (List.filter_sublist _)
  have hnd : ((get_tickets_by_ids db ids).map Ticket.id).Nodup :=
    hsub.nodup hnodup
  have hss :
      ((get_tickets_by_ids db ids).map Ticket.id).toFinset ⊆
        ids.toFinset.erase i := by
    intro x hx
    rw [List.mem_toFinset, List.mem_map] at hx
    obtain ⟨t, ht, rfl⟩ := hx
    rw [get_tickets_by_ids, List.mem_filter] at ht
    obtain ⟨htm, hid⟩ := ht
    rw [Finset.mem_erase]
    refine ⟨hmiss t htm, List.mem_toFinset.mpr ?_⟩
    simpa using hid
  have hlt : (get_tickets_by_ids db ids).length < ids.length := by
    calc (get_tickets_by_ids db ids).length
        = ((get_tickets_by_ids db ids).map Ticket.id).length := by
          rw [List.length_map]
      _ = ((get_tickets_by_ids db ids).map Ticket.id).toFinset.card := by
          rw [List.toFinset_card_of_nodup hnd]
      _ ≤ (ids.toFinset.erase i).card := Finset.card_le_card hss
      _ < ids.toFinset.card :=
          Finset.card_erase_lt_of_mem (List.mem_toFinset.mpr hmem)
      _ ≤ ids.length := ids.toFinset_card_le
  have hlen : (get_tickets_by_ids db ids).length ≠ ids.length :=
    Nat.ne_of_lt hlt
  have htr : pyTruthy (some ids) = true := by
    cases ids with
    | nil => exact absurd rfl hne
    | cons a l => rfl
  simp [analyze_tickets, htr, hlen]

/-- Witness for C3: a store with tickets 1 and 2, requested ids [1, 99]
where 99 matches nothing. -/
theorem c3_missing_id_rejects_whole_request_witness :
    analyze_tickets twoTicketDB (some [1, 99]) =
      (Except.error (ApiError.notFound "Some ticket IDs were not found"),
       twoTicketDB) :=
  c3_missing_id_rejects_whole_request twoTicketDB [1, 99] (by decide)
    (by decide) 99 (by decide) (by decide)

/-- C4. For the empty input ticket sequence, the pipeline produces the
literal summary "No tickets analyzed." and an empty per-ticket result
list. -/
theorem c4_empty_input_summary :
    analyze_tickets_with_agent [] =
      { analysis_results := [], summary := "No tickets analyzed." } ∧
    generate_summary [] = "No tickets analyzed." :=
  ⟨rfl, rfl⟩

/-- C5. For a nonempty result list, the generated summary carries the
attention clause exactly when the number of critical-priority results
plus the number of high-priority results is positive, and the clause
reports exactly that count; with a zero count the summary is just the
three base parts. -/
theorem c5_attention_clause_iff (results : List PerTicketResult)
    (h : results ≠ []) :
    (0 < attention_count results →
      generate_summary results =
        String.intercalate " " (summary_base_parts results) ++ " " ++
          attention_clause (attention_count results)) ∧
    (attention_count results = 0 →
      generate_summary results =
        String.intercalate " " (summary_base_parts results)) := by
  have hne : results.isEmpty = false := by
    cases results with
    | nil => exact absurd rfl h
    | cons a l => rfl
  have hc := getCount_countBy (results.map PerTicketResult.priority) "critical"
  have hh := getCount_countBy (results.map PerTicketResult.priority) "high"
  have hparts : summary_base_parts results ≠ [] := by simp [summary_base_parts]
  constructor
  · intro hpos
    have hcond :
        getCount (countBy (results.map PerTicketResult.priority)) "critical" > 0 ∨
        getCount (countBy (results.map PerTicketResult.priority)) "high" > 0 := by
      rw [hc, hh]
      unfold attention_count at hpos
      omega
    simp only [generate_summary, hne, Bool.false_eq_true, if_false]
    rw [if_pos hcond, hc, hh]
    exact intercalate_append_singleton " "
      (attention_clause (attention_count results))
      (summary_base_parts results) hparts
  · intro hzero
    have h0c :
        getCount (countBy (results.map PerTicketResult.priority)) "critical" = 0 := by
      rw [hc]; unfold attention_count at hzero; omega
    have h0h :
        getCount (countBy (results.map PerTicketResult.priority)) "high" = 0 := by
      rw [hh]; unfold attention_count at hzero; omega
    simp only [generate_summary, hne, Bool.false_eq_true, if_false]
    rw [h0c, h0h, if_neg (by simp)]

/-- Witness for C5 at results with priorities critical, high, low: the
attention count is 2 and the clause reports "2 ticket(s) require
immediate attention.". -/
theorem c5_attention_clause_iff_witness :
    generate_summary c5results =
      String.intercalate " " (summary_base_parts c5results) ++ " " ++
        attention_clause 2 ∧
    attention_clause 2 = "⚠️ 2 ticket(s) require immediate attention." := by
  have h2 : attention_count c5results = 2 := by decide
  have h := (c5_attention_clause_iff c5results (by decide)).1 (by decide)
  rw [h2] at h
  exact ⟨h, by decide⟩

/-- C6. Keyword-rule tie-break: a ticket whose lower-cased text contains
both a billing keyword and a bug keyword classifies as `billing` (the
billing rule is checked first), and a ticket whose text contains both
"critical" and "high" classifies as `critical` priority (the critical
rule is checked first). -/
theorem c6_keyword_precedence (t : Ticket) :
    ((∃ w ∈ billing_keywords, strContains (ticketText t) w = true) ∧
     (∃ w ∈ bug_keywords, strContains (ticketText t) w = true) →
      (mock_analyze_ticket t).category = "billing") ∧
    (strContains (ticketText t) "critical" = true ∧
     strContains (ticketText t) "high" = true →
      (mock_analyze_ticket t).priority = "critical") := by
  constructor
  · rintro ⟨⟨w, hw, hc⟩, -⟩
    have hb : containsAny (ticketText t) billing_keywords = true :=
      List.any_eq_true.mpr ⟨w, hw, hc⟩
    simp [mock_analyze_ticket, hb]
  · rintro ⟨hc, -⟩
    have hcrit : containsAny (ticketText t) critical_keywords = true :=
      List.any_eq_true.mpr ⟨"critical", by decide, hc⟩
    simp [mock_analyze_ticket, hcrit]

/-- Witness for C6 at the concrete ticket `c6ticket`. -/
theorem c6_keyword_precedence_witness :
    (mock_analyze_ticket c6ticket).category = "billing" ∧
    (mock_analyze_ticket c6ticket).priority = "critical" := by
  have h := c6_keyword_precedence c6ticket
  exact ⟨h.1 (by decide), h.2 (by decide)⟩

/-- C7. A ticket whose lower-cased text contains no keyword from any of
the five category lists and none from any of the three priority lists is
classified as category `other` with priority `medium`. -/
theorem c7_no_keywords_gives_defaults (t : Ticket)
    (hcat : ∀ w ∈ billing_keywords ++ bug_keywords ++ feature_keywords ++
      account_keywords ++ technical_keywords,
      strContains (ticketText t) w = false)
    (hpri : ∀ w ∈ critical_keywords ++ high_keywords ++ low_keywords,
      strContains (ticketText t) w = false) :
    (mock_analyze_ticket t).category = "other" ∧
    (mock_analyze_ticket t).priority = "medium" := by
  have hfalse : ∀ ws : List String,
      (∀ w ∈ ws, strContains (ticketText t) w = false) →
      containsAny (ticketText t) ws = false := by
    intro ws h
    rw [containsAny, List.any_eq_false]
    intro w hw
    simp [h w hw]
  have h1 := hfalse billing_keywords (fun w hw => hcat w (by simp [hw]))
  have h2 := hfalse bug_keywords (fun w hw => hcat w (by simp [hw]))
  have h3 := hfalse feature_keywords (fun w hw => hcat w (by simp [hw]))
  have h4 := hfalse account_keywords (fun w hw => hcat w (by simp [hw]))
  have h5 := hfalse technical_keywords (fun w hw => hcat w (by simp [hw]))
  have h6 := hfalse critical_keywords (fun w hw => hpri w (by simp [hw]))
  have h7 := hfalse high_keywords (fun w hw => hpri w (by simp [hw]))
  have h8 := hfalse low_keywords (fun w hw => hpri w (by simp [hw]))
  constructor <;>
    simp [mock_analyze_ticket, h1, h2, h3, h4, h5, h6, h7, h8]

/-- Witness for C7 at the concrete ticket `c7ticket`. -/
theorem c7_no_keywords_gives_defaults_witness :
    (mock_analyze_ticket c7ticket).category = "other" ∧
    (mock_analyze_ticket c7ticket).priority = "medium" :=
  c7_no_keywords_gives_defaults c7ticket (by decide) (by decide)

/-- C8 counterexample. In a store with two runs sharing the greatest
`created_at` (100), the claim says the run with the greater id (2) is
returned; the embedded query, which orders by `created_at` alone, returns
run 1. -/
theorem c8_tie_not_broken_by_greatest_id :
    get_latest_analysis_run tieRunsDB =
      some { id := 1, created_at := 100, summary := none } ∧
    ({ id := 2, created_at := 100, summary := none } : AnalysisRun) ∈
      tieRunsDB.analysis_runs ∧
    (∀ r ∈ tieRunsDB.analysis_runs, r.created_at ≤ 100 ∧ r.id ≤ 2) ∧
    ¬(get_latest_analysis_run tieRunsDB).map AnalysisRun.id = some 2 := by
  have hs : tieRunsDB.analysis_runs.mergeSort
      (fun a b => b.created_at ≤ a.created_at) = tieRunsDB.analysis_runs :=
    List.mergeSort_of_sorted (by decide)
  have h1 : get_latest_analysis_run tieRunsDB =
      some { id := 1, created_at := 100, summary := none } := by
    unfold get_latest_analysis_run
    rw [hs]
    rfl
  refine ⟨h1, by decide, by decide, ?_⟩
  rw [h1]
  decide

/-- C8 amended. `get_latest_analysis_run` returns `none` exactly when no
runs exist, and otherwise returns a stored run whose `created_at` is
greatest; no tiebreak on id is guaranteed. -/
theorem c8_latest_run_has_greatest_created_at (db : DB) :
    (get_latest_analysis_run db = none ↔ db.analysis_runs = []) ∧
    (∀ r, get_latest_analysis_run db = some r →
      r ∈ db.analysis_runs ∧
      ∀ q ∈ db.analysis_runs, q.created_at ≤ r.created_at) := by
  have hperm : (db.analysis_runs.mergeSort
      (fun a b => b.created_at ≤ a.created_at)).Perm db.analysis_runs :=
    List.mergeSort_perm _ _
  have hsorted : (db.analysis_runs.mergeSort
      (fun a b => b.created_at ≤ a.created_at)).Pairwise
      (fun a b => b.created_at ≤ a.created_at) := by
    exact List.Pairwise.imp (fun hab => by simpa using hab)
      (List.sorted_mergeSort
        (fun a b c hab hbc => by
          simp only [decide_eq_true_eq] at hab hbc ⊢
          omega)
        (fun a b => by
          simp only [Bool.or_eq_true, decide_eq_true_eq]
          exact Nat.le_total b.created_at a.created_at)
        db.analysis_runs)
  constructor
  · constructor
    · intro h
      have hnil : db.analysis_runs.mergeSort
          (fun a b => b.created_at ≤ a.created_at) = [] := by
        unfold get_latest_analysis_run at h
        exact List.head?_eq_none_iff.mp h
      rw [hnil] at hperm
      exact hperm.symm.eq_nil
    · intro h
      unfold get_latest_analysis_run
      rw [h, List.mergeSort_nil]
      rfl
  · intro r hr
    unfold get_latest_analysis_run at hr
    rcases hms : db.analysis_runs.mergeSort
        (fun a b => b.created_at ≤ a.created_at) with _ | ⟨x, xs⟩
    · rw [hms] at hr
      exact absurd hr (by simp)
    · rw [hms] at hr
      have hxr : x = r := by simpa using hr
      subst hxr
      rw [hms] at hperm hsorted
      constructor
      · exact hperm.mem_iff.mp (List.mem_cons_self x xs)
      · intro q hq
        have hq2 : q ∈ x :: xs := hperm.mem_iff.mpr hq
        rcases List.mem_cons.mp hq2 with hqx | hqx
        · subst hqx
          exact Nat.le_refl _
        · exact (List.pairwise_cons.mp hsorted).1 q hqx

/-- Witness for the amended C8 at the one-run store. -/
theorem c8_latest_run_has_greatest_created_at_witness :
    ({ id := 7, created_at := 3, summary := none } : AnalysisRun) ∈
      oneRunDB.analysis_runs ∧
    ∀ q ∈ oneRunDB.analysis_runs, q.created_at ≤ 3 := by
  have hlatest : get_latest_analysis_run oneRunDB =
      some { id := 7, created_at := 3, summary := none } := by
    simp [get_latest_analysis_run, oneRunDB]
  have h := (c8_latest_run_has_greatest_created_at oneRunDB).2 _ hlatest
  exact ⟨h.1, fun q hq => h.2 q hq⟩

set_option maxRecDepth 10000 in
/-- C9 counterexample. In a store with 1001 tickets whose `created_at`
increases with insertion order, the claim says the 1000 most recent
(greatest `created_at`) are analyzed; the embedded endpoint (whose
ticket query has no ordering) analyzes the first 1000 in table order and
excludes the most recent ticket (id 1000). -/
theorem c9_most_recent_ticket_excluded :
    bigDB.tickets.length = 1001 ∧
    bigTicket 1000 ∈ bigDB.tickets ∧
    (∀ t ∈ bigDB.tickets, t.created_at ≤ (bigTicket 1000).created_at) ∧
    analyzedTicketIds bigDB none = some (List.range 1000) ∧
    (bigTicket 1000).id ∉ List.range 1000 := by
  refine ⟨?_, ?_, ?_, ?_, ?_⟩
  · simp only [bigDB, List.length_map, List.length_range]
  · simp only [bigDB]
    exact List.mem_map.mpr ⟨1000, List.mem_range.mpr (by omega), rfl⟩
  · intro t ht
    simp only [bigDB, List.mem_map] at ht
    obtain ⟨i, hi, rfl⟩ := ht
    simp only [bigTicket]
    have := List.mem_range.mp hi
    omega
  · rw [analyzedTicketIds_omitted bigDB (by simp [bigDB])]
    have h1000 : bigDB.tickets.take 1000 =
        (List.range 1000).map bigTicket := by
      simp only [bigDB]
      rw [← List.map_take, List.take_range]
      norm_num
    rw [h1000, List.map_map]
    have hid : (Ticket.id ∘ bigTicket) = fun i => i := by
      funext i
      rfl
    rw [hid]
    simp
  · simp only [bigTicket, List.mem_range]
    omega

/-- C9 amended. With `ticketIds` omitted (and at least one stored
ticket), the set of tickets analyzed is the first up-to-1000 tickets in
table (insertion) order — not necessarily the most recent, since the
ticket query has no ordering. -/
theorem c9_omitted_ids_analyzes_first_1000 (db : DB)
    (h : db.tickets ≠ []) :
    analyzedTicketIds db none =
      some ((db.tickets.take 1000).map Ticket.id) :=
  analyzedTicketIds_omitted db h

/-- Witness for the amended C9 at the one-ticket store. -/
theorem c9_omitted_ids_analyzes_first_1000_witness :
    analyzedTicketIds oneTicketDB none = some [1] := by
  have h := c9_omitted_ids_analyzes_first_1000 oneTicketDB (by decide)
  have e : (oneTicketDB.tickets.take 1000).map Ticket.id = [1] := by decide
  rw [e] at h
  exact h

/-- C10. A request whose `ticketIds` field is the empty list is handled
exactly as if the field were omitted: Python truthiness sends both to the
same branch, analyzing up to 1000 stored tickets. -/
theorem c10_empty_ids_same_as_omitted (db : DB) :
    analyze_tickets db (some []) = analyze_tickets db none :=
  rfl

end TicketAssist
